import Mathlib

/-!
Verification of `sdks/python/apache_beam/typehints/native_type_compatibility.py`.

The module converts between Python's reflective typing expressions and Beam's
internal typehint constraints.  We embed both worlds into a single inductive
`PyVal` (Python is unityped: converted results and pass-through values flow
through the same variables), embed the reflection attributes the source reads
(`__module__`, `__origin__`, `__args__`, `issubclass`, `isinstance`), the
ordered match-rule table, and the two conversion engines.

Object identity matters for type variables: the source keeps a process-wide
cache `_type_var_cache : Dict[int, ...]` keyed by `id(obj)`.  We model object
identity by giving every `typing.TypeVar` and every `typehints.TypeVariable`
instance a numeric object id, and thread a state holding the cache together
with the next fresh id (CPython guarantees distinct live objects have distinct
ids; theorems assume ids of live inputs are below the allocator watermark).

Conversion is modelled with an explicit fuel argument (the Python recursion
has no explicit bound); fuel exhaustion is a distinguished error that no
theorem treats as a result of the program.

The Beam `typehints` module itself is not part of the sources under
verification.  Modelled from the spec: internal type constraints are the
spec's closed tagged variants (`Any`, `TypeVariable(name)`, `List(elem)`,
`Dict(key, value)`, `Set`, `FrozenSet`, `Tuple`, `TupleSequence`, `Union`,
`Iterable`, `Iterator`, `Generator(yielded, sent, returned)`, `Sequence`,
`Mapping`, `Collection`, `WindowedValue`), `isinstance` against a constraint
class is membership in that variant, and subscripting a constraint factory
builds the variant (with `Tuple[T, ...]` building `TupleSequence(T)`).
-/

/-- The five primitive container classes listed in `_BUILTINS`. -/
inductive PrimKind where
  | pdict | plist | ptuple | pset | pfrozenset
deriving DecidableEq, Repr

/-- The eight `collections.abc` classes listed in `_CONVERTED_COLLECTIONS`. -/
inductive GKind where
  | iterable | iterator | generator | aset | mutableSet | collection | sequence | mapping
deriving DecidableEq, Repr

/-- Values flowing through the converter: Python typing expressions, plain
classes and instances, and Beam typehint constraints.  Constructors carry
exactly the reflective structure the source inspects.  `typeVar` and
`beamTypeVariable` carry an object id (`oid`) modelling CPython object
identity, which the `_type_var_cache` is keyed by. -/
inductive PyVal where
  /-- A `typing.TypeVar` instance (identity `oid`, `__name__`). -/
  | typeVar (oid : Nat) (name : String)
  /-- A `str` instance (a quoted forward reference). -/
  | strVal (s : String)
  /-- A `typing.NewType` wrapper (Python 3.10+: an instance of the
  `typing.NewType` class, carrying `__supertype__`). -/
  | newTypeVal (name : String) (module : String)
  /-- A `typing.ForwardRef` instance. -/
  | forwardRefVal (name : String)
  /-- The `typing.Any` special form. -/
  | anyVal
  /-- The `Ellipsis` singleton. -/
  | ellipsisVal
  /-- The `type(None)` (`NoneType`) class. -/
  | noneCls
  /-- A plain class or opaque value that carries no `__origin__`/`__args__`:
  builtin scalar classes such as `int`, user-defined classes, or (when
  `module` is `none`) a value with no `__module__` attribute at all. -/
  | cls (module : Option String) (name : String)
  /-- A bare builtin container class: `dict`, `list`, `tuple`, `set`,
  `frozenset`. -/
  | prim (k : PrimKind)
  /-- A builtin generic alias `dict[...]`, `list[...]`, ...; its
  `__module__` is proxied from the origin (`builtins`). -/
  | primAlias (k : PrimKind) (args : List PyVal)
  /-- `typing.Dict` / `typing.List` / ... with builtin `__origin__`;
  `args = none` for the bare (unsubscripted) alias. -/
  | typingPrimAlias (k : PrimKind) (args : Option (List PyVal))
  /-- `typing.Iterable` / `typing.Mapping` / ... with a `collections.abc`
  `__origin__`; `args = none` for the bare alias. -/
  | typingAlias (g : GKind) (args : Option (List PyVal))
  /-- A bare `collections.abc` class from `_CONVERTED_COLLECTIONS`. -/
  | abcCls (g : GKind)
  /-- A subscripted `collections.abc` generic `collections.abc.X[...]`. -/
  | abcAlias (g : GKind) (args : List PyVal)
  /-- Some other `collections.abc` class (e.g. `Callable`, `Hashable`) that
  is not in `_CONVERTED_COLLECTIONS`. -/
  | abcOther (name : String)
  /-- The bare `typing.Union` special form. -/
  | unionSpecial
  /-- A subscripted `typing.Union[...]` (also `typing.Optional[...]`). -/
  | unionAlias (args : List PyVal)
  /-- A `types.UnionType` instance built with the `|` operator (3.10+). -/
  | pipeUnion (args : List PyVal)
  /-- The `collections.Counter` class. -/
  | counterCls
  /-- `typing.Counter[...]` (`fromTyping = true`) or
  `collections.Counter[...]` (`fromTyping = false`). -/
  | counterAlias (fromTyping : Bool) (args : List PyVal)
  /-- A user-defined `NamedTuple` subclass: a tuple subclass carrying
  `__annotations__`. -/
  | namedTupleCls (module : String) (name : String)
  /-- The `TypedWindowedValue` marker class defined in the source module. -/
  | twvCls
  /-- A subscripted `TypedWindowedValue[...]`. -/
  | twvAlias (args : List PyVal)
  /-- `typehints.Any` (the `AnyTypeConstraint` instance). -/
  | beamAny
  /-- A `typehints.TypeVariable` instance (identity `oid`, `.name`). -/
  | beamTypeVariable (oid : Nat) (name : String)
  | beamList (t : PyVal)
  | beamDict (key value : PyVal)
  | beamSet (t : PyVal)
  | beamFrozenSet (t : PyVal)
  | beamTuple (ts : List PyVal)
  | beamTupleSeq (t : PyVal)
  | beamUnion (ts : List PyVal)
  | beamIterable (t : PyVal)
  | beamIterator (t : PyVal)
  | beamGenerator (yielded sent returned : PyVal)
  | beamSequence (t : PyVal)
  | beamMapping (key value : PyVal)
  | beamCollection (t : PyVal)
  | beamWindowed (t : PyVal)
deriving Repr

/-- Structural (value) equality on `PyVal`, used where the source tests
`is` / `in` against class singletons and where Python `==` deduplicates
union members.  For class singletons and immutable special forms, identity
and equality coincide. -/
def pyBeq (a b : PyVal) : Bool :=
  match a, b with
  | .typeVar i n, .typeVar j m => i == j && n == m
  | .strVal s, .strVal t => s == t
  | .newTypeVal n m, .newTypeVal n2 m2 => n == n2 && m == m2
  | .forwardRefVal n, .forwardRefVal m => n == m
  | .anyVal, .anyVal => true
  | .ellipsisVal, .ellipsisVal => true
  | .noneCls, .noneCls => true
  | .cls m n, .cls m2 n2 => m == m2 && n == n2
  | .prim k, .prim k2 => k == k2
  | .primAlias k a1, .primAlias k2 a2 => k == k2 && pyBeqList a1 a2
  | .typingPrimAlias k a1, .typingPrimAlias k2 a2 => k == k2 && pyBeqOpt a1 a2
  | .typingAlias g a1, .typingAlias g2 a2 => g == g2 && pyBeqOpt a1 a2
  | .abcCls g, .abcCls g2 => g == g2
  | .abcAlias g a1, .abcAlias g2 a2 => g == g2 && pyBeqList a1 a2
  | .abcOther n, .abcOther m => n == m
  | .unionSpecial, .unionSpecial => true
  | .unionAlias a1, .unionAlias a2 => pyBeqList a1 a2
  | .pipeUnion a1, .pipeUnion a2 => pyBeqList a1 a2
  | .counterCls, .counterCls => true
  | .counterAlias f a1, .counterAlias f2 a2 => f == f2 && pyBeqList a1 a2
  | .namedTupleCls m n, .namedTupleCls m2 n2 => m == m2 && n == n2
  | .twvCls, .twvCls => true
  | .twvAlias a1, .twvAlias a2 => pyBeqList a1 a2
  | .beamAny, .beamAny => true
  | .beamTypeVariable i n, .beamTypeVariable j m => i == j && n == m
  | .beamList t, .beamList t2 => pyBeq t t2
  | .beamDict k v, .beamDict k2 v2 => pyBeq k k2 && pyBeq v v2
  | .beamSet t, .beamSet t2 => pyBeq t t2
  | .beamFrozenSet t, .beamFrozenSet t2 => pyBeq t t2
  | .beamTuple a1, .beamTuple a2 => pyBeqList a1 a2
  | .beamTupleSeq t, .beamTupleSeq t2 => pyBeq t t2
  | .beamUnion a1, .beamUnion a2 => pyBeqList a1 a2
  | .beamIterable t, .beamIterable t2 => pyBeq t t2
  | .beamIterator t, .beamIterator t2 => pyBeq t t2
  | .beamGenerator y s r, .beamGenerator y2 s2 r2 => pyBeq y y2 && pyBeq s s2 && pyBeq r r2
  | .beamSequence t, .beamSequence t2 => pyBeq t t2
  | .beamMapping k v, .beamMapping k2 v2 => pyBeq k k2 && pyBeq v v2
  | .beamCollection t, .beamCollection t2 => pyBeq t t2
  | .beamWindowed t, .beamWindowed t2 => pyBeq t t2
  | _, _ => false
where
  pyBeqList : List PyVal → List PyVal → Bool
    | [], [] => true
    | x :: xs, y :: ys => pyBeq x y && pyBeqList xs ys
    | _, _ => false
  pyBeqOpt : Option (List PyVal) → Option (List PyVal) → Bool
    | none, none => true
    | some xs, some ys => pyBeqList xs ys
    | _, _ => false

/-- `getattr(typ, '__module__', None)`. -/
def pyModule : PyVal → Option String
  | .typeVar _ _ => some "__main__"
  | .strVal _ => some "builtins"
  | .newTypeVal _ m => some m
  | .forwardRefVal _ => some "typing"
  | .anyVal => some "typing"
  | .ellipsisVal => some "builtins"
  | .noneCls => some "builtins"
  | .cls m _ => m
  | .prim _ => some "builtins"
  | .primAlias _ _ => some "builtins"
  | .typingPrimAlias _ _ => some "typing"
  | .typingAlias _ _ => some "typing"
  | .abcCls _ => some "collections.abc"
  | .abcAlias _ _ => some "collections.abc"
  | .abcOther _ => some "collections.abc"
  | .unionSpecial => some "typing"
  | .unionAlias _ => some "typing"
  | .pipeUnion _ => some "types"
  | .counterCls => some "collections"
  | .counterAlias fromTyping _ => some (if fromTyping then "typing" else "collections")
  | .namedTupleCls m _ => some m
  | .twvCls => some "apache_beam.typehints.native_type_compatibility"
  | .twvAlias _ => some "apache_beam.typehints.native_type_compatibility"
  | _ => some "apache_beam.typehints.typehints"

/-- `getattr(typ, '__origin__', None)`. -/
def pyOrigin : PyVal → Option PyVal
  | .primAlias k _ => some (.prim k)
  | .typingPrimAlias k _ => some (.prim k)
  | .typingAlias g _ => some (.abcCls g)
  | .abcAlias g _ => some (.abcCls g)
  | .unionAlias _ => some .unionSpecial
  | .counterAlias _ _ => some .counterCls
  | .twvAlias _ => some .twvCls
  | _ => none

/-- `getattr(typ, '__args__', None)` (`some` iff the attribute exists). -/
def pyArgs : PyVal → Option (List PyVal)
  | .primAlias _ as => some as
  | .typingPrimAlias _ oas => oas
  | .typingAlias _ oas => oas
  | .abcAlias _ as => some as
  | .unionAlias as => some as
  | .pipeUnion as => some as
  | .counterAlias _ as => some as
  | .twvAlias as => some as
  | _ => none

/-- `_get_args(typ)`: the `__args__` tuple, or `(typ.__name__,)` for a
`TypeVar`, or `()`. -/
def _get_args (typ : PyVal) : List PyVal :=
  match pyArgs typ with
  | some as => as
  | none =>
    match typ with
    | .typeVar _ nm => [.strVal nm]
    | _ => []

/-- Whether a value is an actual class (acceptable as the first argument of
Python's `issubclass` without a `TypeError`). -/
def isCls : PyVal → Bool
  | .prim _ => true
  | .abcCls _ => true
  | .abcOther _ => true
  | .counterCls => true
  | .twvCls => true
  | .namedTupleCls _ _ => true
  | .noneCls => true
  | .cls (some _) _ => true
  | _ => false

/-- Ground-truth `issubclass` facts between the classes this module ever
compares (reflexivity plus the CPython class/ABC hierarchy). -/
def classSubclass (d p : PyVal) : Bool :=
  match d, p with
  | .prim a, .prim b => a == b
  | .prim .pset, .abcCls g => g == .aset || g == .mutableSet || g == .collection || g == .iterable
  | .prim .pfrozenset, .abcCls g => g == .aset || g == .collection || g == .iterable
  | .prim .pdict, .abcCls g => g == .mapping || g == .collection || g == .iterable
  | .prim .plist, .abcCls g => g == .sequence || g == .collection || g == .iterable
  | .prim .ptuple, .abcCls g => g == .sequence || g == .collection || g == .iterable
  | .abcCls a, .abcCls b => a == b || abcSub a b
  | .counterCls, .prim .pdict => true
  | .counterCls, .counterCls => true
  | .counterCls, .abcCls g => g == .mapping || g == .collection || g == .iterable
  | .namedTupleCls _ _, .prim .ptuple => true
  | .namedTupleCls m n, .namedTupleCls m2 n2 => m == m2 && n == n2
  | .twvCls, .twvCls => true
  | .noneCls, .noneCls => true
  | .abcOther n, .abcOther m => n == m
  | .cls m n, .cls m2 n2 => m == m2 && n == n2
  | _, _ => false
where
  /-- Strict subclass facts inside `collections.abc`. -/
  abcSub : GKind → GKind → Bool
    | .iterator, .iterable => true
    | .generator, .iterator => true
    | .generator, .iterable => true
    | .mutableSet, .aset => true
    | .mutableSet, .collection => true
    | .mutableSet, .iterable => true
    | .aset, .collection => true
    | .aset, .iterable => true
    | .collection, .iterable => true
    | .sequence, .collection => true
    | .sequence, .iterable => true
    | .mapping, .collection => true
    | .mapping, .iterable => true
    | _, _ => false

/-- The class a parent argument of `issubclass` is resolved against: bare
`typing` aliases delegate their `__subclasscheck__` to their origin class;
actual classes stand for themselves; anything else raises `TypeError`. -/
def parentCanon : PyVal → Option PyVal
  | .typingPrimAlias k none => some (.prim k)
  | .typingAlias g none => some (.abcCls g)
  | v => if isCls v then some v else none

/-- `_safe_issubclass(derived, parent)`: `issubclass` that swallows
`TypeError`, falling back to testing `derived.__origin__`. -/
def _safe_issubclass (derived parent : PyVal) : Bool :=
  match parentCanon parent with
  | none => false
  | some p =>
    if isCls derived then classSubclass derived p
    else
      match pyOrigin derived with
      | some o => if isCls o then classSubclass o p else false
      | none => false

/-- `_is_primitive(user_type, primitive)`: the bare primitive itself, or a
generic alias whose `__origin__` is the primitive. -/
def _is_primitive (u : PyVal) (p : PyVal) : Bool :=
  pyBeq u p ||
    (match pyOrigin u with
     | some o => pyBeq o p
     | none => false)

/-- `_match_is_primitive(match_against)` applied to a user type. -/
def _match_is_primitive (k : PrimKind) (u : PyVal) : Bool :=
  _is_primitive u (.prim k)

/-- `_match_is_dict`. -/
def _match_is_dict (u : PyVal) : Bool :=
  _is_primitive u (.prim .pdict) || _safe_issubclass u (.prim .pdict)

/-- `_match_is_exactly_mapping`. -/
def _match_is_exactly_mapping (u : PyVal) : Bool :=
  match pyOrigin u with
  | some o => pyBeq o (.abcCls .mapping)
  | none => false

/-- `_match_is_exactly_iterable`. -/
def _match_is_exactly_iterable (u : PyVal) : Bool :=
  pyBeq u (.typingAlias .iterable none) || pyBeq u (.abcCls .iterable) ||
    (match pyOrigin u with
     | some o => pyBeq o (.abcCls .iterable)
     | none => false)

/-- `_match_is_exactly_collection`. -/
def _match_is_exactly_collection (u : PyVal) : Bool :=
  match pyOrigin u with
  | some o => pyBeq o (.abcCls .collection)
  | none => false

/-- `_match_is_exactly_sequence`. -/
def _match_is_exactly_sequence (u : PyVal) : Bool :=
  match pyOrigin u with
  | some o => pyBeq o (.abcCls .sequence)
  | none => false

/-- `hasattr(user_type, '__annotations__')` as the source relies on it: in
the supported interpreters only NamedTuple classes expose field
annotations. -/
def hasAnnotationsAttr : PyVal → Bool
  | .namedTupleCls _ _ => true
  | _ => false

/-- `match_is_named_tuple`. -/
def match_is_named_tuple (u : PyVal) : Bool :=
  _safe_issubclass u (.typingPrimAlias .ptuple none) && hasAnnotationsAttr u

/-- `_match_is_union`: the bare `typing.Union` form, or a value whose
`__origin__` is `typing.Union` (reading `__origin__` on a value without the
attribute is the swallowed `AttributeError` branch). -/
def _match_is_union (u : PyVal) : Bool :=
  pyBeq u .unionSpecial ||
    (match pyOrigin u with
     | some o => pyBeq o .unionSpecial
     | none => false)

/-- `_match_is_optional`. -/
def _match_is_optional (u : PyVal) : Bool :=
  _match_is_union u && ((_get_args u).countP (fun tp => pyBeq tp .noneCls) == 1)

/-- `extract_optional_type`: the first non-`NoneType` argument of an
Optional-shaped union, else `None`.  (The Python `next(...)` would raise
`StopIteration` if no non-`None` argument existed; that shape is not
constructible with real `typing.Union`, which collapses such a union to
`NoneType` before this function can see it.) -/
def extract_optional_type (u : PyVal) : Option PyVal :=
  if !(_match_is_optional u) then none
  else (_get_args u).find? (fun tp => !(pyBeq tp .noneCls))

/-- `_match_is_set`. -/
def _match_is_set (u : PyVal) : Bool :=
  if _safe_issubclass u (.typingPrimAlias .pset none) || _is_primitive u (.prim .pset) then
    true
  else
    match pyOrigin u with
    | some o =>
      _safe_issubclass o (.abcCls .aset) || _safe_issubclass o (.abcCls .mutableSet)
    | none => false

/-- `is_any`. -/
def is_any : PyVal → Bool
  | .anyVal => true
  | _ => false

/-- `is_new_type` (`hasattr(typ, '__supertype__')`). -/
def is_new_type : PyVal → Bool
  | .newTypeVal _ _ => true
  | _ => false

/-- `is_forward_ref` (`isinstance(typ, typing.ForwardRef)`). -/
def is_forward_ref : PyVal → Bool
  | .forwardRefVal _ => true
  | _ => false

/-- `typ in _BUILTINS` (equality against the five builtin container
classes). -/
def inBuiltinsList : PyVal → Bool
  | .prim _ => true
  | _ => false

/-- `is_builtin`. -/
def is_builtin (typ : PyVal) : Bool :=
  inBuiltinsList typ ||
    (match pyOrigin typ with
     | some o => inBuiltinsList o
     | none => false)

/-- `typ_module in _CONVERTED_MODULES`. -/
def inConvertedModules : Option String → Bool
  | some m => m == "typing" || m == "collections" || m == "collections.abc"
  | none => false

/-- `getattr(typ, '__origin__', typ)`. -/
def originOrSelf (typ : PyVal) : PyVal :=
  (pyOrigin typ).getD typ

/-- Membership in `_CONVERTED_COLLECTIONS` (the eight supported
`collections.abc` classes). -/
def inConvertedCollections : PyVal → Bool
  | .abcCls _ => true
  | _ => false

/-- `isinstance(typ, types.UnionType)`. -/
def isUnionTypeInstance : PyVal → Bool
  | .pipeUnion _ => true
  | _ => false

/-- `isinstance(typ, typing.TypeVar)`. -/
def isTypeVarInstance : PyVal → Bool
  | .typeVar _ _ => true
  | _ => false

/-- `isinstance(typ, str)`. -/
def isStrInstance : PyVal → Bool
  | .strVal _ => true
  | _ => false

/-- `isinstance(typ, typing.NewType)` (Python 3.10+). -/
def isNewTypeInstance : PyVal → Bool
  | .newTypeVal _ _ => true
  | _ => false

/-- `isinstance(typ, typehints.TypeVariable)`. -/
def isBeamTypeVariableInstance : PyVal → Bool
  | .beamTypeVariable _ _ => true
  | _ => false

/-- The check at the `TypedWindowedValue` special case: the value's module is
this source module and its `__name__` (or its origin's) is
`TypedWindowedValue`. -/
def isTWVShort (typ : PyVal) : Bool :=
  (pyModule typ == some "apache_beam.typehints.native_type_compatibility") &&
    (match typ with
     | .twvCls => true
     | .twvAlias _ => true
     | _ => false)

/-- Errors surfaced by the converters.  `arityMismatch` carries the offending
type and both arities, mirroring the `ValueError` message text
`'expecting type %s to have arity %d, had arity %d instead'`;
`failedToConvert` mirrors `'Failed to convert Beam type: %s'`;
`attributeErrorNoModule` is the `AttributeError` raised by
`None.endswith('typehints')` when a value has no `__module__`;
`fuelExhausted` is the artificial recursion bound of the embedding. -/
inductive ConvError where
  | unsupportedUnionNoArgs
  | arityMismatch (typ : PyVal) (expected : Int) (actual : Nat)
  | failedToConvert (typ : PyVal)
  | attributeErrorNoModule
  | fuelExhausted
deriving Repr

/-- The process-wide conversion state: the `_type_var_cache` contents
(object id to the object of the other kind) and the next fresh object id
(all live objects' ids are assumed below it). -/
structure ConvState where
  cache : List (Nat × PyVal)
  nextId : Nat
deriving Repr

/-- Lookup in the id-keyed cache (first binding wins, like dict update
order: a key is never inserted twice). -/
def lookupId : List (Nat × PyVal) → Nat → Option PyVal
  | [], _ => none
  | (k, v) :: rest, i => if k == i then some v else lookupId rest i

/-- Allocating `typehints.TypeVariable(name)`: a fresh object id. -/
def freshTypeVariable (name : String) (s : ConvState) : PyVal × ConvState :=
  (.beamTypeVariable s.nextId name, { s with nextId := s.nextId + 1 })

/-- The `isinstance(typ, typing.TypeVar)` branch of `convert_to_beam_type`:
return the cached `typehints.TypeVariable`, creating and recording a fresh
one (in both directions) on a miss. -/
def convertTypeVar (oid : Nat) (name : String) (s : ConvState) : PyVal × ConvState :=
  match lookupId s.cache oid with
  | some v => (v, s)
  | none =>
    let ntv : PyVal := .beamTypeVariable s.nextId name
    (ntv, ⟨(oid, ntv) :: (s.nextId, .typeVar oid name) :: s.cache, s.nextId + 1⟩)

/-- Wrapper extracting the `TypeVar` fields (the branch is only entered when
`isTypeVarInstance` holds; the default arm is dead). -/
def convertTypeVarVal (typ : PyVal) (s : ConvState) : PyVal × ConvState :=
  match typ with
  | .typeVar oid nm => convertTypeVar oid nm s
  | _ => (typ, s)

/-- The `isinstance(typ, typehints.TypeVariable)` branch of
`convert_to_python_type`: dual of `convertTypeVar`, creating a fresh
`typing.TypeVar(typ.name)` on a miss. -/
def convertBeamTypeVariable (oid : Nat) (name : String) (s : ConvState) : PyVal × ConvState :=
  match lookupId s.cache oid with
  | some v => (v, s)
  | none =>
    let ntv : PyVal := .typeVar s.nextId name
    (ntv, ⟨(oid, ntv) :: (s.nextId, .beamTypeVariable oid name) :: s.cache, s.nextId + 1⟩)

/-- Wrapper extracting the `TypeVariable` fields. -/
def convertBeamTypeVariableVal (typ : PyVal) (s : ConvState) : PyVal × ConvState :=
  match typ with
  | .beamTypeVariable oid nm => convertBeamTypeVariable oid nm s
  | _ => (typ, s)

/-- `convert_typing_to_builtin(typ)`: rewrite a typing alias whose
`__origin__` is a builtin container into the builtin generic-alias spelling.
Only the `list` and `dict` cases recurse into arguments; `tuple`, `set` and
`frozenset` pass their argument tuple through unchanged, exactly as the
source subscripts the builtin with the whole `args` tuple.  (A `dict`-origin
alias with fewer than two arguments would raise `IndexError` in Python; that
shape is unreachable from the guarded call site and is returned unchanged
here.) -/
def convert_typing_to_builtin : PyVal → PyVal
  | .typingPrimAlias k none => .prim k
  | .typingPrimAlias k (some []) => .prim k
  | .primAlias k [] => .prim k
  | .typingPrimAlias .plist (some (a :: _)) => .primAlias .plist [convert_typing_to_builtin a]
  | .primAlias .plist (a :: _) => .primAlias .plist [convert_typing_to_builtin a]
  | .typingPrimAlias .pdict (some (a :: b :: _)) =>
    .primAlias .pdict [convert_typing_to_builtin a, convert_typing_to_builtin b]
  | .primAlias .pdict (a :: b :: _) =>
    .primAlias .pdict [convert_typing_to_builtin a, convert_typing_to_builtin b]
  | .typingPrimAlias .ptuple (some as) => .primAlias .ptuple as
  | .primAlias .ptuple as => .primAlias .ptuple as
  | .typingPrimAlias .pset (some as) => .primAlias .pset as
  | .primAlias .pset as => .primAlias .pset as
  | .typingPrimAlias .pfrozenset (some as) => .primAlias .pfrozenset as
  | .primAlias .pfrozenset as => .primAlias .pfrozenset as
  | t => t

/-- `typing.Union[typ]` applied to a `types.UnionType` value: the pipe union
is flattened into the equivalent `typing.Union` subscription. -/
def pipeToUnion (typ : PyVal) : PyVal :=
  match typ with
  | .pipeUnion as => .unionAlias as
  | _ => typ

/-- The constraint constructor an entry of the type map builds. -/
inductive BeamTag where
  | tAny | tDict | tIterable | tList | tFrozenSet | tSet | tTuple | tUnion
  | tGenerator | tIterator | tCollection | tWindowedValue | tSequence | tMapping
deriving DecidableEq, Repr

/-- Subscripting a Beam constraint factory with converted arguments.
Modelled from the spec: `Tuple[T, Ellipsis]` builds the variadic
`TupleSequence(T)`; every other factory builds its variant from exactly its
arity of arguments (impossible shapes fall back to `Any`; the engine's
arity handling never produces them). -/
def applyTag : BeamTag → List PyVal → PyVal
  | .tAny, _ => .beamAny
  | .tDict, [k, v] => .beamDict k v
  | .tIterable, [t] => .beamIterable t
  | .tList, [t] => .beamList t
  | .tFrozenSet, [t] => .beamFrozenSet t
  | .tSet, [t] => .beamSet t
  | .tTuple, ts =>
    match ts with
    | [t, .ellipsisVal] => .beamTupleSeq t
    | _ => .beamTuple ts
  | .tUnion, ts => .beamUnion ts
  | .tGenerator, [y, sn, r] => .beamGenerator y sn r
  | .tIterator, [t] => .beamIterator t
  | .tCollection, [t] => .beamCollection t
  | .tWindowedValue, [t] => .beamWindowed t
  | .tSequence, [t] => .beamSequence t
  | .tMapping, [k, v] => .beamMapping k v
  | _, _ => .beamAny

/-- An entry of the type map: the match predicate, the expected arity
(−1 variadic), and the Beam constraint to build. -/
structure _TypeMapEntry where
  matchFn : PyVal → Bool
  arity : Int
  beam_type : BeamTag

/-- The ordered match-rule table of `convert_to_beam_type` (first match
wins). -/
def type_map : List _TypeMapEntry := [
  ⟨is_new_type, 0, .tAny⟩,
  ⟨is_forward_ref, 0, .tAny⟩,
  ⟨is_any, 0, .tAny⟩,
  ⟨_match_is_dict, 2, .tDict⟩,
  ⟨_match_is_exactly_iterable, 1, .tIterable⟩,
  ⟨_match_is_primitive .plist, 1, .tList⟩,
  ⟨_match_is_primitive .pfrozenset, 1, .tFrozenSet⟩,
  ⟨_match_is_set, 1, .tSet⟩,
  ⟨match_is_named_tuple, 0, .tAny⟩,
  ⟨_match_is_primitive .ptuple, -1, .tTuple⟩,
  ⟨_match_is_union, -1, .tUnion⟩,
  ⟨fun u => _safe_issubclass u (.abcCls .generator), 3, .tGenerator⟩,
  ⟨fun u => _safe_issubclass u (.abcCls .iterator), 1, .tIterator⟩,
  ⟨_match_is_exactly_collection, 1, .tCollection⟩,
  ⟨fun u => _safe_issubclass u .twvCls, 1, .tWindowedValue⟩,
  ⟨_match_is_exactly_sequence, 1, .tSequence⟩,
  ⟨_match_is_exactly_mapping, 2, .tMapping⟩]

/-- `next((entry for entry in type_map if entry.match(typ)), None)`. -/
def first_matching_entry (typ : PyVal) : Option _TypeMapEntry :=
  type_map.find? (fun e => e.matchFn typ)

/-- The `int` class (the implicit second Counter argument). -/
def intCls : PyVal := .cls (some "builtins") "int"

/-- The `str` class. -/
def strCls : PyVal := .cls (some "builtins") "str"

/-- Left-to-right conversion of a list of arguments threading the cache
state, parameterized by the one-value converter (used at one fuel level
below the caller). -/
def convertList (f : PyVal → ConvState → Except ConvError (PyVal × ConvState)) :
    List PyVal → ConvState → Except ConvError (List PyVal × ConvState)
  | [], s => .ok ([], s)
  | a :: as, s => do
    let (b, s1) ← f a s
    let (bs, s2) ← convertList f as s1
    .ok (b :: bs, s2)

/-- The tail of `convert_to_beam_type` after arity resolution: convert every
argument recursively, then subscript the matched constraint (`arity == 0`:
the bare constraint; `arity == 1`: a single argument; otherwise the tuple of
arguments). -/
def construct_matched (f : PyVal → ConvState → Except ConvError (PyVal × ConvState))
    (entry : _TypeMapEntry) (arity : Int) (args : List PyVal) (s : ConvState) :
    Except ConvError (PyVal × ConvState) := do
  let (typs, s1) ← convertList f args s
  if arity == 0 then
    pure (applyTag entry.beam_type [], s1)
  else if arity == 1 then
    pure (applyTag entry.beam_type [typs.headD .beamAny], s1)
  else
    pure (applyTag entry.beam_type typs, s1)

/-- The match-table stage of `convert_to_beam_type` (source lines 372-477):
find the first matching rule, resolve the argument arity (unsubscripted
defaults, variadic rules, the Counter special case, the arity-mismatch
error) and construct the result. -/
def convert_with_map (f : PyVal → ConvState → Except ConvError (PyVal × ConvState))
    (typ : PyVal) (s : ConvState) : Except ConvError (PyVal × ConvState) :=
  match first_matching_entry typ with
  | none => .ok (.beamAny, s)
  | some entry =>
    let args := _get_args typ
    let len_args := args.length
    if (len_args == 0) && !((Int.ofNat len_args) == entry.arity) then
      if _safe_issubclass typ (.typingPrimAlias .ptuple none) then
        let (tv, s1) := freshTypeVariable "T" s
        construct_matched f entry entry.arity [tv, .ellipsisVal] s1
      else if _match_is_union typ then
        .error .unsupportedUnionNoArgs
      else if _safe_issubclass typ (.typingAlias .generator none) then
        let (tv, s1) := freshTypeVariable "T_co" s
        construct_matched f entry entry.arity [tv, .noneCls, .noneCls] s1
      else if _safe_issubclass typ (.typingPrimAlias .pdict none) then
        let (kt, s1) := freshTypeVariable "KT" s
        let (vt, s2) := freshTypeVariable "VT" s1
        construct_matched f entry entry.arity [kt, vt] s2
      else if _safe_issubclass typ (.typingAlias .iterator none) || _match_is_exactly_iterable typ then
        let (tv, s1) := freshTypeVariable "T_co" s
        construct_matched f entry entry.arity [tv] s1
      else
        let (tv, s1) := freshTypeVariable "T" s
        construct_matched f entry entry.arity (List.replicate entry.arity.toNat tv) s1
    else if entry.arity == -1 then
      construct_matched f entry (Int.ofNat len_args) args s
    else if (len_args == 1) && _safe_issubclass (originOrSelf typ) .counterCls then
      construct_matched f entry entry.arity (args ++ [intCls]) s
    else if !((Int.ofNat len_args) == entry.arity) then
      .error (.arityMismatch typ entry.arity len_args)
    else
      construct_matched f entry entry.arity args s

/-- `convert_to_beam_type(typ)`: normalize pipe unions and typing-spelled
builtin aliases, short-circuit type variables (identity cache), string
forward references and NewTypes, pass through foreign types, then run the
match-rule table.  The extra `Nat` is recursion fuel (the embedding's bound
on nesting depth); each recursive argument conversion runs one level
down. -/
def convert_to_beam_type : Nat → PyVal → ConvState → Except ConvError (PyVal × ConvState)
  | 0, _, _ => .error .fuelExhausted
  | n + 1, typ0, s =>
    let typ1 := if isUnionTypeInstance typ0 then pipeToUnion typ0 else typ0
    let typ := if pyModule typ1 == some "typing" then convert_typing_to_builtin typ1 else typ1
    if isTypeVarInstance typ then
      .ok (convertTypeVarVal typ s)
    else if isStrInstance typ then
      .ok (.beamAny, s)
    else if isNewTypeInstance typ then
      .ok (.beamAny, s)
    else if !(isTWVShort typ) && !(inConvertedModules (pyModule typ)) && !(is_builtin typ) then
      .ok (typ, s)
    else if (pyModule typ == some "collections.abc") && !(inConvertedCollections (originOrSelf typ)) then
      .ok (typ, s)
    else
      convert_with_map (convert_to_beam_type n) typ s

/-- `convert_to_beam_types(args)` on a list of types (the source also
accepts a dict of types, converting the values; no claim depends on the
dict shape). -/
def convert_to_beam_types (n : Nat) : List PyVal → ConvState → Except ConvError (List PyVal × ConvState) :=
  convertList (convert_to_beam_type n)

/-- Python's `str.endswith`, evaluated on the character lists. -/
def strEndsWith (s suffix : String) : Bool :=
  (suffix.data.length ≤ s.data.length) &&
    (s.data.drop (s.data.length - suffix.data.length) == suffix.data)

/-- `typing.Union[tuple(ts)]`: Python's `Union` subscription flattens nested
unions, deduplicates by equality keeping first occurrences, and collapses a
singleton to its sole member.  Modelled from the stdlib behaviour the
source relies on. -/
def mkUnion (ts : List PyVal) : PyVal :=
  let flat := ts.flatMap (fun t =>
    match t with
    | .unionAlias xs => xs
    | x => [x])
  let ded := flat.foldl (fun acc b => if acc.any (fun a => pyBeq a b) then acc else acc ++ [b]) []
  match ded with
  | [t] => t
  | ds => .unionAlias ds

/-- `convert_to_python_type(typ)`: the reverse engine.  Type variables go
through the identity cache; a value whose `__module__` does not end in
`'typehints'` passes through unchanged (and a value with no `__module__` at
all raises `AttributeError` from `None.endswith`); then each recognized
constraint variant is rebuilt as the corresponding external generic with
recursively converted arguments, an empty `Union` degrades to `typing.Any`,
and anything unrecognized raises the malformed-type `ValueError`.
Modelled from the spec: the `isinstance(typ, typehints.XConstraint)` chain
is variant membership on the spec's tagged constraint representation; the
variants the source chain never tests (`Generator`, `Collection`,
`WindowedValue`) therefore fall through to the final error. -/
def convert_to_python_type : Nat → PyVal → ConvState → Except ConvError (PyVal × ConvState)
  | 0, _, _ => .error .fuelExhausted
  | n + 1, typ, s =>
    if isBeamTypeVariableInstance typ then
      .ok (convertBeamTypeVariableVal typ s)
    else
      match pyModule typ with
      | none => .error .attributeErrorNoModule
      | some m =>
        if !(strEndsWith m "typehints") then
          .ok (typ, s)
        else
          match typ with
          | .beamAny => .ok (.anyVal, s)
          | .beamDict k v => do
            let (k2, s1) ← convert_to_python_type n k s
            let (v2, s2) ← convert_to_python_type n v s1
            .ok (.primAlias .pdict [k2, v2], s2)
          | .beamList t => do
            let (t2, s1) ← convert_to_python_type n t s
            .ok (.primAlias .plist [t2], s1)
          | .beamIterable t => do
            let (t2, s1) ← convert_to_python_type n t s
            .ok (.abcAlias .iterable [t2], s1)
          | .beamUnion ts =>
            if ts.isEmpty then
              .ok (.anyVal, s)
            else do
              let (ts2, s1) ← convertList (convert_to_python_type n) ts s
              .ok (mkUnion ts2, s1)
          | .beamSet t => do
            let (t2, s1) ← convert_to_python_type n t s
            .ok (.primAlias .pset [t2], s1)
          | .beamFrozenSet t => do
            let (t2, s1) ← convert_to_python_type n t s
            .ok (.primAlias .pfrozenset [t2], s1)
          | .beamTuple ts => do
            let (ts2, s1) ← convertList (convert_to_python_type n) ts s
            .ok (.primAlias .ptuple ts2, s1)
          | .beamTupleSeq t => do
            let (t2, s1) ← convert_to_python_type n t s
            .ok (.primAlias .ptuple [t2, .ellipsisVal], s1)
          | .beamSequence t => do
            let (t2, s1) ← convert_to_python_type n t s
            .ok (.abcAlias .sequence [t2], s1)
          | .beamIterator t => do
            let (t2, s1) ← convert_to_python_type n t s
            .ok (.abcAlias .iterator [t2], s1)
          | .beamMapping k v => do
            let (k2, s1) ← convert_to_python_type n k s
            let (v2, s2) ← convert_to_python_type n v s1
            .ok (.abcAlias .mapping [k2, v2], s2)
          | other => .error (.failedToConvert other)

/-- `convert_to_python_types(args)` on a list. -/
def convert_to_python_types (n : Nat) : List PyVal → ConvState → Except ConvError (List PyVal × ConvState) :=
  convertList (convert_to_python_type n)

/-- The supported one-parameter container kinds of the forward engine, in
the external spelling that reaches the matcher unchanged (builtin generic
aliases for the primitive containers, `collections.abc` aliases for the
abstract ones). -/
inductive UnaryKind where
  | uList | uSet | uFrozenSet | uIterable | uIterator | uSequence | uCollection
deriving DecidableEq, Repr

/-- The external generic `K[X]` for a one-parameter container kind. -/
def unaryExt : UnaryKind → PyVal → PyVal
  | .uList, x => .primAlias .plist [x]
  | .uSet, x => .primAlias .pset [x]
  | .uFrozenSet, x => .primAlias .pfrozenset [x]
  | .uIterable, x => .abcAlias .iterable [x]
  | .uIterator, x => .abcAlias .iterator [x]
  | .uSequence, x => .abcAlias .sequence [x]
  | .uCollection, x => .abcAlias .collection [x]

/-- The internal constraint for a one-parameter container kind. -/
def unaryBeam : UnaryKind → PyVal → PyVal
  | .uList, x => .beamList x
  | .uSet, x => .beamSet x
  | .uFrozenSet, x => .beamFrozenSet x
  | .uIterable, x => .beamIterable x
  | .uIterator, x => .beamIterator x
  | .uSequence, x => .beamSequence x
  | .uCollection, x => .beamCollection x

/-- An example user-defined class (not from any type-hint vocabulary). -/
def fooCls : PyVal := .cls (some "myapp") "Foo"

/-- Helper: a one-argument conversion step.  If the engine at `t` reduces to
converting the single argument list `[X]` and subscripting `tag`, and `X`
converts to `x'`, the whole conversion yields the subscripted constraint. -/
theorem convert_unary_step (n : Nat) (s s₁ : ConvState) (X x' : PyVal) (tag : BeamTag)
    (t : PyVal)
    (hX : convert_to_beam_type n X s = .ok (x', s₁))
    (h1 : convert_to_beam_type (n + 1) t s
        = (convertList (convert_to_beam_type n) [X] s).bind
            (fun p => .ok (applyTag tag [p.1.headD .beamAny], p.2))) :
    convert_to_beam_type (n + 1) t s = .ok (applyTag tag [x'], s₁) := by
  rw [h1]
  simp [convertList, hX, Except.bind, Bind.bind]

/-- Helper: a two-argument conversion step. -/
theorem convert_binary_step (n : Nat) (s s₁ s₂ : ConvState) (X Y x' y' : PyVal) (tag : BeamTag)
    (t : PyVal)
    (hX : convert_to_beam_type n X s = .ok (x', s₁))
    (hY : convert_to_beam_type n Y s₁ = .ok (y', s₂))
    (h1 : convert_to_beam_type (n + 1) t s
        = (convertList (convert_to_beam_type n) [X, Y] s).bind
            (fun p => .ok (applyTag tag p.1, p.2))) :
    convert_to_beam_type (n + 1) t s = .ok (applyTag tag [x', y'], s₂) := by
  rw [h1]
  simp [convertList, hX, hY, Except.bind, Bind.bind]

/-- Helper: a three-argument conversion step. -/
theorem convert_ternary_step (n : Nat) (s s₁ s₂ s₃ : ConvState) (X Y Z x' y' z' : PyVal)
    (tag : BeamTag) (t : PyVal)
    (hX : convert_to_beam_type n X s = .ok (x', s₁))
    (hY : convert_to_beam_type n Y s₁ = .ok (y', s₂))
    (hZ : convert_to_beam_type n Z s₂ = .ok (z', s₃))
    (h1 : convert_to_beam_type (n + 1) t s
        = (convertList (convert_to_beam_type n) [X, Y, Z] s).bind
            (fun p => .ok (applyTag tag p.1, p.2))) :
    convert_to_beam_type (n + 1) t s = .ok (applyTag tag [x', y', z'], s₃) := by
  rw [h1]
  simp [convertList, hX, hY, hZ, Except.bind, Bind.bind]

/-- C2: for every supported container kind `K` and every element type `X`,
`toInternal(K[X])` is the internal constraint for `K` parameterized by
`toInternal(X)` (stated compositionally, which yields arbitrary nesting
depth); concretely, `toInternal(Dict[str, int]) = Dict(str, int)` and
`toInternal(List[List[int]]) = List(List(int))`. -/
theorem container_conversion_recursive (n : Nat) (s s₁ s₂ s₃ : ConvState)
    (X Y Z x' y' z' : PyVal)
    (hX : convert_to_beam_type n X s = .ok (x', s₁))
    (hY : convert_to_beam_type n Y s₁ = .ok (y', s₂))
    (hZ : convert_to_beam_type n Z s₂ = .ok (z', s₃)) :
    (∀ K : UnaryKind,
      convert_to_beam_type (n + 1) (unaryExt K X) s = .ok (unaryBeam K x', s₁)) ∧
    convert_to_beam_type (n + 1) (.primAlias .pdict [X, Y]) s = .ok (.beamDict x' y', s₂) ∧
    convert_to_beam_type (n + 1) (.abcAlias .mapping [X, Y]) s = .ok (.beamMapping x' y', s₂) ∧
    convert_to_beam_type (n + 1) (.abcAlias .generator [X, Y, Z]) s
      = .ok (.beamGenerator x' y' z', s₃) ∧
    convert_to_beam_type 2 (.typingPrimAlias .pdict (some [strCls, intCls])) ⟨[], 0⟩
      = .ok (.beamDict strCls intCls, ⟨[], 0⟩) ∧
    convert_to_beam_type 3
        (.typingPrimAlias .plist (some [.typingPrimAlias .plist (some [intCls])])) ⟨[], 0⟩
      = .ok (.beamList (.beamList intCls), ⟨[], 0⟩) := by
  refine ⟨?_, ?_, ?_, ?_, rfl, rfl⟩
  · intro K
    cases K
    case uList => exact convert_unary_step n s s₁ X x' .tList _ hX rfl
    case uSet => exact convert_unary_step n s s₁ X x' .tSet _ hX rfl
    case uFrozenSet => exact convert_unary_step n s s₁ X x' .tFrozenSet _ hX rfl
    case uIterable => exact convert_unary_step n s s₁ X x' .tIterable _ hX rfl
    case uIterator => exact convert_unary_step n s s₁ X x' .tIterator _ hX rfl
    case uSequence => exact convert_unary_step n s s₁ X x' .tSequence _ hX rfl
    case uCollection => exact convert_unary_step n s s₁ X x' .tCollection _ hX rfl
  · exact convert_binary_step n s s₁ s₂ X Y x' y' .tDict _ hX hY rfl
  · exact convert_binary_step n s s₁ s₂ X Y x' y' .tMapping _ hX hY rfl
  · exact convert_ternary_step n s s₁ s₂ s₃ X Y Z x' y' z' .tGenerator _ hX hY hZ rfl

/-- Witness for C2 at concrete inputs (`X = int`, `Y = str`, `Z = NoneType`,
starting from the empty cache). -/
theorem container_conversion_recursive_witness :
    (convert_to_beam_type 1 intCls ⟨[], 0⟩ = .ok (intCls, ⟨[], 0⟩)) ∧
    (convert_to_beam_type 1 strCls ⟨[], 0⟩ = .ok (strCls, ⟨[], 0⟩)) ∧
    (convert_to_beam_type 1 .noneCls ⟨[], 0⟩ = .ok (.noneCls, ⟨[], 0⟩)) ∧
    ((∀ K : UnaryKind,
      convert_to_beam_type 2 (unaryExt K intCls) ⟨[], 0⟩
        = .ok (unaryBeam K intCls, ⟨[], 0⟩)) ∧
    convert_to_beam_type 2 (.primAlias .pdict [intCls, strCls]) ⟨[], 0⟩
      = .ok (.beamDict intCls strCls, ⟨[], 0⟩) ∧
    convert_to_beam_type 2 (.abcAlias .mapping [intCls, strCls]) ⟨[], 0⟩
      = .ok (.beamMapping intCls strCls, ⟨[], 0⟩) ∧
    convert_to_beam_type 2 (.abcAlias .generator [intCls, strCls, .noneCls]) ⟨[], 0⟩
      = .ok (.beamGenerator intCls strCls .noneCls, ⟨[], 0⟩) ∧
    convert_to_beam_type 2 (.typingPrimAlias .pdict (some [strCls, intCls])) ⟨[], 0⟩
      = .ok (.beamDict strCls intCls, ⟨[], 0⟩) ∧
    convert_to_beam_type 3
        (.typingPrimAlias .plist (some [.typingPrimAlias .plist (some [intCls])])) ⟨[], 0⟩
      = .ok (.beamList (.beamList intCls), ⟨[], 0⟩)) :=
  ⟨rfl, rfl, rfl,
    container_conversion_recursive 1 ⟨[], 0⟩ ⟨[], 0⟩ ⟨[], 0⟩ ⟨[], 0⟩
      intCls strCls .noneCls intCls strCls .noneCls rfl rfl rfl⟩

/-- C4 counterexample: converting the bare (unsubscripted) mapping type does
not yield a constraint over two distinct fresh type variables.  Bare
`typing.Mapping` yields the mapping constraint with one single fresh
`TypeVariable('T')` instance used in both positions (the source builds the
argument tuple as `(TypeVariable('T'),) * arity`, duplicating one object),
and bare `collections.abc.Mapping` matches no rule at all and yields the
`Any` constraint. -/
theorem bare_mapping_not_distinct_fresh_vars :
    (convert_to_beam_type 2 (.typingAlias .mapping none) ⟨[], 0⟩
      = .ok (.beamMapping (.beamTypeVariable 0 "T") (.beamTypeVariable 0 "T"), ⟨[], 1⟩)) ∧
    (convert_to_beam_type 1 (.abcCls .mapping) ⟨[], 0⟩ = .ok (.beamAny, ⟨[], 0⟩)) :=
  ⟨rfl, rfl⟩

/-- C4 (amended): converting bare `typing.Dict` (equivalently bare `dict`)
yields the dict constraint over two distinct fresh type variables `KT` and
`VT`; but converting the bare mapping type does not: bare `typing.Mapping`
yields the mapping constraint over a single fresh `TypeVariable('T')`
repeated in both positions, and bare `collections.abc.Mapping` matches no
rule and degrades to `Any`. -/
theorem unsubscripted_generic_defaults :
    (convert_to_beam_type 2 (.typingPrimAlias .pdict none) ⟨[], 0⟩
      = .ok (.beamDict (.beamTypeVariable 0 "KT") (.beamTypeVariable 1 "VT"), ⟨[], 2⟩)) ∧
    (convert_to_beam_type 2 (.prim .pdict) ⟨[], 0⟩
      = .ok (.beamDict (.beamTypeVariable 0 "KT") (.beamTypeVariable 1 "VT"), ⟨[], 2⟩)) ∧
    (convert_to_beam_type 2 (.typingAlias .iterable none) ⟨[], 0⟩
      = .ok (.beamIterable (.beamTypeVariable 0 "T_co"), ⟨[], 1⟩)) ∧
    (convert_to_beam_type 2 (.typingAlias .mapping none) ⟨[], 0⟩
      = .ok (.beamMapping (.beamTypeVariable 0 "T") (.beamTypeVariable 0 "T"), ⟨[], 1⟩)) ∧
    (convert_to_beam_type 1 (.abcCls .mapping) ⟨[], 0⟩ = .ok (.beamAny, ⟨[], 0⟩)) :=
  ⟨rfl, rfl, rfl, rfl, rfl⟩

/-- C5: a union with zero declared alternatives raises the malformed-type
error on the forward path (both for the bare `typing.Union` form and for an
argumentless union value), while the reverse path maps an internal `Union`
with zero alternatives to `typing.Any` without error. -/
theorem empty_union_asymmetry :
    (convert_to_beam_type 1 .unionSpecial ⟨[], 0⟩ = .error .unsupportedUnionNoArgs) ∧
    (convert_to_beam_type 1 (.unionAlias []) ⟨[], 0⟩ = .error .unsupportedUnionNoArgs) ∧
    (convert_to_python_type 1 (.beamUnion []) ⟨[], 0⟩ = .ok (.anyVal, ⟨[], 0⟩)) :=
  ⟨rfl, rfl, rfl⟩

/-- C1: type-variable identity round trips through the process-wide cache in
both directions.  For an external `TypeVar` `v` whose id is live (below the
allocator watermark) and cache-coherent (absent, or present with its mirror
entry), `toExternal(toInternal(v))` is `v` itself; symmetrically for an
internal `TypeVariable` converted first.  Identity (the `oid`), not name
equality, is what round-trips: the cache stores the very instances. -/
theorem typevar_identity_roundtrip (n m i j : Nat) (nm nm2 : String) (s t : ConvState)
    (his : i < s.nextId)
    (hcoh : lookupId s.cache i = none ∨
      ∃ k nk, lookupId s.cache i = some (.beamTypeVariable k nk) ∧
        lookupId s.cache k = some (.typeVar i nm))
    (hjt : j < t.nextId)
    (hcoh2 : lookupId t.cache j = none ∨
      ∃ k nk, lookupId t.cache j = some (.typeVar k nk) ∧
        lookupId t.cache k = some (.beamTypeVariable j nm2)) :
    (∃ y s', convert_to_beam_type (n + 1) (.typeVar i nm) s = .ok (y, s') ∧
      convert_to_python_type (m + 1) y s' = .ok (.typeVar i nm, s')) ∧
    (∃ x t', convert_to_python_type (m + 1) (.beamTypeVariable j nm2) t = .ok (x, t') ∧
      convert_to_beam_type (n + 1) x t' = .ok (.beamTypeVariable j nm2, t')) := by
  constructor
  · have hstep : convert_to_beam_type (n + 1) (.typeVar i nm) s
        = .ok (convertTypeVar i nm s) := rfl
    rcases hcoh with hnone | ⟨k, nk, hsome, hrev⟩
    · refine ⟨.beamTypeVariable s.nextId nm,
        ⟨(i, .beamTypeVariable s.nextId nm) :: (s.nextId, .typeVar i nm) :: s.cache,
          s.nextId + 1⟩, ?_, ?_⟩
      · rw [hstep]
        unfold convertTypeVar
        rw [hnone]
      · have hstep2 : convert_to_python_type (m + 1)
            (.beamTypeVariable s.nextId nm)
            ⟨(i, .beamTypeVariable s.nextId nm) :: (s.nextId, .typeVar i nm) :: s.cache,
              s.nextId + 1⟩
            = .ok (convertBeamTypeVariable s.nextId nm
                ⟨(i, .beamTypeVariable s.nextId nm) :: (s.nextId, .typeVar i nm) :: s.cache,
                  s.nextId + 1⟩) := rfl
        rw [hstep2]
        unfold convertBeamTypeVariable
        have hne : (i == s.nextId) = false := by
          exact beq_eq_false_iff_ne.mpr (Nat.ne_of_lt his)
        simp [lookupId, hne]
    · refine ⟨.beamTypeVariable k nk, s, ?_, ?_⟩
      · rw [hstep]
        unfold convertTypeVar
        rw [hsome]
      · have hstep2 : convert_to_python_type (m + 1) (.beamTypeVariable k nk) s
            = .ok (convertBeamTypeVariable k nk s) := rfl
        rw [hstep2]
        unfold convertBeamTypeVariable
        rw [hrev]
  · have hstep : convert_to_python_type (m + 1) (.beamTypeVariable j nm2) t
        = .ok (convertBeamTypeVariable j nm2 t) := rfl
    rcases hcoh2 with hnone | ⟨k, nk, hsome, hrev⟩
    · refine ⟨.typeVar t.nextId nm2,
        ⟨(j, .typeVar t.nextId nm2) :: (t.nextId, .beamTypeVariable j nm2) :: t.cache,
          t.nextId + 1⟩, ?_, ?_⟩
      · rw [hstep]
        unfold convertBeamTypeVariable
        rw [hnone]
      · have hstep2 : convert_to_beam_type (n + 1)
            (.typeVar t.nextId nm2)
            ⟨(j, .typeVar t.nextId nm2) :: (t.nextId, .beamTypeVariable j nm2) :: t.cache,
              t.nextId + 1⟩
            = .ok (convertTypeVar t.nextId nm2
                ⟨(j, .typeVar t.nextId nm2) :: (t.nextId, .beamTypeVariable j nm2) :: t.cache,
                  t.nextId + 1⟩) := rfl
        rw [hstep2]
        unfold convertTypeVar
        have hne : (j == t.nextId) = false := by
          exact beq_eq_false_iff_ne.mpr (Nat.ne_of_lt hjt)
        simp [lookupId, hne]
    · refine ⟨.typeVar k nk, t, ?_, ?_⟩
      · rw [hstep]
        unfold convertBeamTypeVariable
        rw [hsome]
      · have hstep2 : convert_to_beam_type (n + 1) (.typeVar k nk) t
            = .ok (convertTypeVar k nk t) := rfl
        rw [hstep2]
        unfold convertTypeVar
        rw [hrev]

/-- Witness for C1: both directions from fresh (empty-cache) states. -/
theorem typevar_identity_roundtrip_witness :
    ((0 : Nat) < 1 ∧ (0 : Nat) < 1) ∧
    ((∃ y s', convert_to_beam_type 1 (.typeVar 0 "T") ⟨[], 1⟩ = .ok (y, s') ∧
      convert_to_python_type 1 y s' = .ok (.typeVar 0 "T", s')) ∧
    (∃ x t', convert_to_python_type 1 (.beamTypeVariable 0 "S") ⟨[], 1⟩ = .ok (x, t') ∧
      convert_to_beam_type 1 x t' = .ok (.beamTypeVariable 0 "S", t'))) :=
  ⟨⟨Nat.zero_lt_one, Nat.zero_lt_one⟩,
    typevar_identity_roundtrip 0 0 0 0 "T" "S" ⟨[], 1⟩ ⟨[], 1⟩
      Nat.zero_lt_one (Or.inl rfl) Nat.zero_lt_one (Or.inl rfl)⟩

/-- C3 counterexample: the reverse engine raises the malformed-type error on
a documented internal constraint variant.  `WindowedValue(int)` is one of
the documented variants, yet `convert_to_python_type` has no case for it and
fails, refuting the claim that the error occurs only for values not
recognized as documented variants. -/
theorem reverse_windowed_value_raises :
    convert_to_python_type 1 (.beamWindowed intCls) ⟨[], 0⟩
      = .error (.failedToConvert (.beamWindowed intCls)) := rfl

/-- C3 (amended): the reverse engine maps `Any`, `TypeVariable`, `List`,
`Dict`, `Set`, `FrozenSet`, `Tuple`, `TupleSequence`, nonempty `Union`,
`Iterable`, `Iterator`, `Sequence` and `Mapping` to the corresponding
external generic forms with recursively converted arguments, but the
`Generator`, `Collection` and `WindowedValue` variants are not recognized
and raise the malformed-type error naming the value. -/
theorem reverse_conversion_variants (n : Nat) (s s₁ s₂ : ConvState) (x y x' y' : PyVal)
    (hx : convert_to_python_type n x s = .ok (x', s₁))
    (hy : convert_to_python_type n y s₁ = .ok (y', s₂)) :
    convert_to_python_type (n + 1) (.beamList x) s = .ok (.primAlias .plist [x'], s₁) ∧
    convert_to_python_type (n + 1) (.beamSet x) s = .ok (.primAlias .pset [x'], s₁) ∧
    convert_to_python_type (n + 1) (.beamFrozenSet x) s
      = .ok (.primAlias .pfrozenset [x'], s₁) ∧
    convert_to_python_type (n + 1) (.beamTupleSeq x) s
      = .ok (.primAlias .ptuple [x', .ellipsisVal], s₁) ∧
    convert_to_python_type (n + 1) (.beamIterable x) s = .ok (.abcAlias .iterable [x'], s₁) ∧
    convert_to_python_type (n + 1) (.beamIterator x) s = .ok (.abcAlias .iterator [x'], s₁) ∧
    convert_to_python_type (n + 1) (.beamSequence x) s = .ok (.abcAlias .sequence [x'], s₁) ∧
    convert_to_python_type (n + 1) (.beamTuple [x, y]) s
      = .ok (.primAlias .ptuple [x', y'], s₂) ∧
    convert_to_python_type (n + 1) (.beamDict x y) s = .ok (.primAlias .pdict [x', y'], s₂) ∧
    convert_to_python_type (n + 1) (.beamMapping x y) s
      = .ok (.abcAlias .mapping [x', y'], s₂) ∧
    convert_to_python_type (n + 1) (.beamUnion [x, y]) s = .ok (mkUnion [x', y'], s₂) ∧
    convert_to_python_type (n + 1) .beamAny s = .ok (.anyVal, s) ∧
    convert_to_python_type 1 (.beamTypeVariable 0 "T") ⟨[], 1⟩
      = .ok (.typeVar 1 "T", ⟨[(0, .typeVar 1 "T"), (1, .beamTypeVariable 0 "T")], 2⟩) ∧
    (∀ z u, convert_to_python_type (n + 1) (.beamGenerator x y z) u
      = .error (.failedToConvert (.beamGenerator x y z))) ∧
    (∀ z u, convert_to_python_type (n + 1) (.beamCollection z) u
      = .error (.failedToConvert (.beamCollection z))) ∧
    (∀ z u, convert_to_python_type (n + 1) (.beamWindowed z) u
      = .error (.failedToConvert (.beamWindowed z))) := by
  have step1 : ∀ (t : PyVal) (g : PyVal → PyVal),
      convert_to_python_type (n + 1) t s
        = (convert_to_python_type n x s).bind (fun p => .ok (g p.1, p.2)) →
      convert_to_python_type (n + 1) t s = .ok (g x', s₁) := by
    intro t g h1
    rw [h1, hx]
    rfl
  have step2 : ∀ (t : PyVal) (g : PyVal → PyVal → PyVal),
      convert_to_python_type (n + 1) t s
        = (convert_to_python_type n x s).bind (fun p =>
            (convert_to_python_type n y p.2).bind (fun q => .ok (g p.1 q.1, q.2))) →
      convert_to_python_type (n + 1) t s = .ok (g x' y', s₂) := by
    intro t g h1
    rw [h1, hx]
    show (convert_to_python_type n y s₁).bind _ = _
    rw [hy]
    rfl
  have step2L : ∀ (t : PyVal) (g : List PyVal → PyVal),
      convert_to_python_type (n + 1) t s
        = (convertList (convert_to_python_type n) [x, y] s).bind (fun p => .ok (g p.1, p.2)) →
      convert_to_python_type (n + 1) t s = .ok (g [x', y'], s₂) := by
    intro t g h1
    rw [h1]
    simp [convertList, hx, hy, Except.bind, Bind.bind]
  refine ⟨step1 _ (fun a => .primAlias .plist [a]) rfl,
    step1 _ (fun a => .primAlias .pset [a]) rfl,
    step1 _ (fun a => .primAlias .pfrozenset [a]) rfl,
    step1 _ (fun a => .primAlias .ptuple [a, .ellipsisVal]) rfl,
    step1 _ (fun a => .abcAlias .iterable [a]) rfl,
    step1 _ (fun a => .abcAlias .iterator [a]) rfl,
    step1 _ (fun a => .abcAlias .sequence [a]) rfl,
    step2L _ (fun l => .primAlias .ptuple l) rfl,
    step2 _ (fun a b => .primAlias .pdict [a, b]) rfl,
    step2 _ (fun a b => .abcAlias .mapping [a, b]) rfl,
    step2L _ (fun l => mkUnion l) rfl,
    rfl, rfl, fun z u => rfl, fun z u => rfl, fun z u => rfl⟩

/-- Witness for C3's amended theorem at concrete inputs. -/
theorem reverse_conversion_variants_witness :
    (convert_to_python_type 1 intCls ⟨[], 0⟩ = .ok (intCls, ⟨[], 0⟩)) ∧
    (convert_to_python_type 1 strCls ⟨[], 0⟩ = .ok (strCls, ⟨[], 0⟩)) ∧
    (convert_to_python_type 2 (.beamList intCls) ⟨[], 0⟩
      = .ok (.primAlias .plist [intCls], ⟨[], 0⟩)) ∧
    (convert_to_python_type 2 (.beamDict intCls strCls) ⟨[], 0⟩
      = .ok (.primAlias .pdict [intCls, strCls], ⟨[], 0⟩)) :=
  ⟨rfl, rfl,
    (reverse_conversion_variants 1 ⟨[], 0⟩ ⟨[], 0⟩ ⟨[], 0⟩ intCls strCls intCls strCls
      rfl rfl).1,
    (reverse_conversion_variants 1 ⟨[], 0⟩ ⟨[], 0⟩ ⟨[], 0⟩ intCls strCls intCls strCls
      rfl rfl).2.2.2.2.2.2.2.2.1⟩

/-- C6: when the first matching rule declares a fixed arity, the present
argument count is nonzero and differs from it, and neither the unsubscripted
synthesis nor the Counter special case applies, the forward engine raises
the malformed-type error carrying the type, the expected arity and the
actual arity, and constructs nothing. -/
theorem arity_mismatch_error (n : Nat) (s : ConvState) (typ : PyVal)
    (entry : _TypeMapEntry) (a : Nat)
    (hPipe : isUnionTypeInstance typ = false)
    (hCtb : convert_typing_to_builtin typ = typ)
    (hTV : isTypeVarInstance typ = false)
    (hStr : isStrInstance typ = false)
    (hNew : isNewTypeInstance typ = false)
    (hGate1 : (!(isTWVShort typ) && !(inConvertedModules (pyModule typ)) &&
        !(is_builtin typ)) = false)
    (hGate2 : ((pyModule typ == some "collections.abc") &&
        !(inConvertedCollections (originOrSelf typ))) = false)
    (hMatch : first_matching_entry typ = some entry)
    (hArity : entry.arity = Int.ofNat a)
    (hLen0 : (_get_args typ).length ≠ 0)
    (hNe : (Int.ofNat (_get_args typ).length) ≠ entry.arity)
    (hCounter : (((_get_args typ).length == 1) &&
        _safe_issubclass (originOrSelf typ) .counterCls) = false) :
    convert_to_beam_type (n + 1) typ s
      = .error (.arityMismatch typ entry.arity (_get_args typ).length) := by
  have h0 : ((_get_args typ).length == 0) = false := beq_eq_false_iff_ne.mpr hLen0
  have hm1 : (entry.arity == -1) = false := by
    rw [hArity]
    exact beq_eq_false_iff_ne.mpr (fun h => Int.noConfusion h)
  have hne2 : ((Int.ofNat (_get_args typ).length) == entry.arity) = false :=
    beq_eq_false_iff_ne.mpr hNe
  simp only [convert_to_beam_type, hPipe, Bool.false_eq_true, if_false, hCtb, ite_self,
    hTV, hStr, hNew, hGate1, hGate2, convert_with_map, hMatch, h0, hm1, hne2, hCounter,
    Bool.false_and, Bool.and_false, Bool.not_false, Bool.not_true, if_true]

/-- Witness for C6: `dict[int]` (one argument against declared arity 2, not
a Counter). -/
theorem arity_mismatch_error_witness :
    ((isUnionTypeInstance (.primAlias .pdict [intCls]) = false) ∧
      (convert_typing_to_builtin (.primAlias .pdict [intCls]) = .primAlias .pdict [intCls]) ∧
      ((_get_args (.primAlias .pdict [intCls])).length ≠ 0)) ∧
    convert_to_beam_type 1 (.primAlias .pdict [intCls]) ⟨[], 0⟩
      = .error (.arityMismatch (.primAlias .pdict [intCls]) 2 1) :=
  ⟨⟨rfl, rfl, by decide⟩,
    arity_mismatch_error 0 ⟨[], 0⟩ (.primAlias .pdict [intCls])
      ⟨_match_is_dict, 2, .tDict⟩ 2 rfl rfl rfl rfl rfl rfl rfl rfl rfl
      (by decide) (by decide) rfl⟩

/-- C7: a type from no recognized type-hint vocabulary (module outside
`typing` / `collections` / `collections.abc`, not a builtin container, and
not one of the specially handled shapes) passes through `toInternal`
unchanged, and converting again returns the same value (idempotence on
pass-through values). -/
theorem foreign_type_passthrough (n : Nat) (s : ConvState) (typ : PyVal)
    (hPipe : isUnionTypeInstance typ = false)
    (hTV : isTypeVarInstance typ = false)
    (hStr : isStrInstance typ = false)
    (hNew : isNewTypeInstance typ = false)
    (hTWV : isTWVShort typ = false)
    (hMod : inConvertedModules (pyModule typ) = false)
    (hBuiltin : is_builtin typ = false) :
    convert_to_beam_type (n + 1) typ s = .ok (typ, s) ∧
    (convert_to_beam_type (n + 1) typ s).bind
        (fun p => convert_to_beam_type (n + 1) p.1 p.2) = .ok (typ, s) := by
  have hTyping : (pyModule typ == some "typing") = false := by
    cases hpm : pyModule typ with
    | none => rfl
    | some m2 =>
      rw [hpm] at hMod
      simp only [inConvertedModules] at hMod
      have h1 : (m2 == "typing") = false :=
        (Bool.or_eq_false_iff.mp ((Bool.or_eq_false_iff.mp hMod).1)).1
      exact h1
  have hpass : convert_to_beam_type (n + 1) typ s = .ok (typ, s) := by
    simp only [convert_to_beam_type, hPipe, Bool.false_eq_true, if_false, hTyping,
      hTV, hStr, hNew, hTWV, hMod, hBuiltin, Bool.not_false, Bool.and_self, if_true]
  refine ⟨hpass, ?_⟩
  rw [hpass]
  show convert_to_beam_type (n + 1) typ s = .ok (typ, s)
  exact hpass

/-- Witness for C7: an arbitrary user-defined class. -/
theorem foreign_type_passthrough_witness :
    ((isUnionTypeInstance fooCls = false) ∧ (inConvertedModules (pyModule fooCls) = false) ∧
      (is_builtin fooCls = false)) ∧
    (convert_to_beam_type 1 fooCls ⟨[], 0⟩ = .ok (fooCls, ⟨[], 0⟩) ∧
      (convert_to_beam_type 1 fooCls ⟨[], 0⟩).bind
        (fun p => convert_to_beam_type 1 p.1 p.2) = .ok (fooCls, ⟨[], 0⟩)) :=
  ⟨⟨rfl, rfl, rfl⟩,
    foreign_type_passthrough 0 ⟨[], 0⟩ fooCls rfl rfl rfl rfl rfl rfl rfl⟩

/-- C8: a Counter-like mapping type carrying exactly one declared argument
`X` (spelled through `typing.Counter[X]` or `collections.Counter[X]`) is
treated as having the two arguments `(X, int)` and converts to the dict
constraint `Dict[toInternal(X), int]`. -/
theorem counter_one_argument (n : Nat) (s s₁ : ConvState) (X x' : PyVal) (ft : Bool)
    (hX : convert_to_beam_type n X s = .ok (x', s₁)) :
    convert_to_beam_type (n + 1) (.counterAlias ft [X]) s = .ok (.beamDict x' intCls, s₁) := by
  cases n with
  | zero =>
    rw [show convert_to_beam_type 0 X s = .error .fuelExhausted from rfl] at hX
    exact absurd hX (by simp)
  | succ n' =>
    have hInt : ∀ u : ConvState, convert_to_beam_type (n' + 1) intCls u = .ok (intCls, u) :=
      fun u => rfl
    cases ft
    case false =>
      have h1 : convert_to_beam_type (n' + 1 + 1) (.counterAlias false [X]) s
          = (convertList (convert_to_beam_type (n' + 1)) [X, intCls] s).bind
              (fun p => .ok (applyTag .tDict p.1, p.2)) := rfl
      rw [h1]
      simp [convertList, applyTag, hX, hInt, Except.bind, Bind.bind]
    case true =>
      have h1 : convert_to_beam_type (n' + 1 + 1) (.counterAlias true [X]) s
          = (convertList (convert_to_beam_type (n' + 1)) [X, intCls] s).bind
              (fun p => .ok (applyTag .tDict p.1, p.2)) := rfl
      rw [h1]
      simp [convertList, applyTag, hX, hInt, Except.bind, Bind.bind]

/-- Witness for C8: `typing.Counter[str]` and `collections.Counter[str]`. -/
theorem counter_one_argument_witness :
    (convert_to_beam_type 1 strCls ⟨[], 0⟩ = .ok (strCls, ⟨[], 0⟩)) ∧
    (convert_to_beam_type 2 (.counterAlias true [strCls]) ⟨[], 0⟩
      = .ok (.beamDict strCls intCls, ⟨[], 0⟩)) ∧
    (convert_to_beam_type 2 (.counterAlias false [strCls]) ⟨[], 0⟩
      = .ok (.beamDict strCls intCls, ⟨[], 0⟩)) :=
  ⟨rfl,
    counter_one_argument 1 ⟨[], 0⟩ ⟨[], 0⟩ strCls strCls true rfl,
    counter_one_argument 1 ⟨[], 0⟩ ⟨[], 0⟩ strCls strCls false rfl⟩

/-- C9 counterexample: a value carrying no `__module__` at all does not pass
through the reverse engine; `getattr(typ, '__module__', None)` yields
`None` and `None.endswith('typehints')` raises `AttributeError`. -/
theorem reverse_no_module_raises :
    convert_to_python_type 1 (.cls none "opaque") ⟨[], 0⟩
      = .error .attributeErrorNoModule := rfl

/-- C9 (amended): a value that is not a `TypeVariable` and whose declared
module does not end with `'typehints'` passes through the reverse engine
unchanged without raising; but a value with no module raises
`AttributeError` (the `endswith` test on a missing module), so the
pass-through does not extend to values carrying no namespace at all. -/
theorem reverse_passthrough_foreign_module (n : Nat) (s : ConvState) (typ : PyVal)
    (m : String)
    (hTV : isBeamTypeVariableInstance typ = false)
    (hm : pyModule typ = some m)
    (hends : strEndsWith m "typehints" = false) :
    convert_to_python_type (n + 1) typ s = .ok (typ, s) := by
  simp only [convert_to_python_type, hTV, Bool.false_eq_true, if_false, hm, hends,
    Bool.not_false, if_true]

/-- Witness for C9's amended theorem: a user class with module `myapp`. -/
theorem reverse_passthrough_foreign_module_witness :
    ((isBeamTypeVariableInstance fooCls = false) ∧ (pyModule fooCls = some "myapp") ∧
      (strEndsWith "myapp" "typehints" = false)) ∧
    convert_to_python_type 1 fooCls ⟨[], 0⟩ = .ok (fooCls, ⟨[], 0⟩) :=
  ⟨⟨rfl, rfl, by decide⟩,
    reverse_passthrough_foreign_module 0 ⟨[], 0⟩ fooCls "myapp" rfl rfl (by decide)⟩

/-- C10 counterexample: `int | None` is a union type whose argument list
contains exactly one `NoneType` and whose first non-`None` argument is
`int`, yet `extract_optional_type` returns `None` for it: pipe-syntax
unions are not recognized by `_match_is_union`. -/
theorem extract_optional_pipe_union_none :
    ([intCls, PyVal.noneCls].countP (fun t => pyBeq t .noneCls) = 1) ∧
    ([intCls, PyVal.noneCls].find? (fun t => !(pyBeq t .noneCls)) = some intCls) ∧
    extract_optional_type (.pipeUnion [intCls, .noneCls]) = none :=
  ⟨rfl, rfl, rfl⟩

/-- C10 (amended): for a `typing`-module union whose arguments contain
exactly one `NoneType`, `extract_optional_type` returns the first argument
that is not `NoneType` (discarding any further alternatives); every other
input — non-unions, pipe-syntax unions, and unions with zero or several
`NoneType` alternatives — yields `None`. -/
theorem extract_optional_type_correct (xs ys zs : List PyVal) (x v : PyVal)
    (hcount : xs.countP (fun t => pyBeq t .noneCls) = 1)
    (hfind : xs.find? (fun t => !(pyBeq t .noneCls)) = some x)
    (hys : ys.countP (fun t => pyBeq t .noneCls) ≠ 1)
    (hv : _match_is_union v = false) :
    extract_optional_type (.unionAlias xs) = some x ∧
    extract_optional_type (.unionAlias ys) = none ∧
    extract_optional_type (.pipeUnion zs) = none ∧
    extract_optional_type v = none := by
  refine ⟨?_, ?_, rfl, ?_⟩
  · have h1 : extract_optional_type (.unionAlias xs)
        = (if !(true && (xs.countP (fun t => pyBeq t .noneCls) == 1)) then none
           else xs.find? (fun tp => !(pyBeq tp .noneCls))) := rfl
    rw [h1, hcount]
    simpa using hfind
  · have h1 : extract_optional_type (.unionAlias ys)
        = (if !(true && (ys.countP (fun t => pyBeq t .noneCls) == 1)) then none
           else ys.find? (fun tp => !(pyBeq tp .noneCls))) := rfl
    have h2 : (ys.countP (fun t => pyBeq t .noneCls) == 1) = false :=
      beq_eq_false_iff_ne.mpr hys
    rw [h1, h2]
    rfl
  · have h4 : _match_is_optional v = false := by
      simp only [_match_is_optional, hv, Bool.false_and]
    simp [extract_optional_type, h4]

/-- Witness for C10's amended theorem: `Union[None, int, str]` yields `int`
(the first non-`None` alternative, discarding `str`); `Union`-shaped values
without exactly one `None`, pipe unions and non-unions yield `None`. -/
theorem extract_optional_type_correct_witness :
    (([PyVal.noneCls, intCls, strCls].countP (fun t => pyBeq t .noneCls) = 1) ∧
      ([PyVal.noneCls, intCls, strCls].find? (fun t => !(pyBeq t .noneCls)) = some intCls) ∧
      ([intCls].countP (fun t => pyBeq t .noneCls) ≠ 1) ∧
      (_match_is_union fooCls = false)) ∧
    (extract_optional_type (.unionAlias [.noneCls, intCls, strCls]) = some intCls ∧
      extract_optional_type (.unionAlias [intCls]) = none ∧
      extract_optional_type (.pipeUnion [intCls, .noneCls]) = none ∧
      extract_optional_type fooCls = none) :=
  ⟨⟨rfl, rfl, by decide, rfl⟩,
    extract_optional_type_correct [.noneCls, intCls, strCls] [intCls] [intCls, .noneCls]
      intCls fooCls rfl rfl (by decide) rfl⟩
